import Mathlib

/-!
Verification of the botrista coffee-making robot core: the spiral trajectory
generator and pour service (`botrista/pouring.py`) and the kettle task
orchestrator (`botrista/kettle.py`).

The Python source is embedded shallowly:
* ROS message types (`geometry_msgs`) become Lean structures over `ℝ`
  (floating point is modelled by real arithmetic).
* `get_spiral_waypoints` becomes a Lean function building the same list the
  Python while-loop builds (count = 0, 1, ..., numPoints-1, appended in order).
* The asynchronous callbacks `pour_callback`, `place_kettle_cb` and
  `pour_kettle_cb` become functions from an environment (the outcome of the
  transform lookup, the end-effector pose, ...) to the returned result paired
  with the ordered trace of externally visible calls (feedback publications,
  motion-planning requests, pour-action goals, delay-service calls).  Each
  gateway call records whether the source awaits its completion.
-/

namespace Botrista

/-- geometry_msgs/Point: fields x, y, z. -/
structure Point where
  x : ℝ
  y : ℝ
  z : ℝ

/-- geometry_msgs/Quaternion: fields x, y, z, w.  The ROS message default is
x = y = z = 0, w = 1 (identity rotation). -/
structure Quaternion where
  x : ℝ
  y : ℝ
  z : ℝ
  w : ℝ

/-- Default-constructed `Quaternion()` message (identity rotation). -/
def quaternionDefault : Quaternion := ⟨0, 0, 0, 1⟩

/-- geometry_msgs/Pose: position and orientation. -/
structure Pose where
  position : Point
  orientation : Quaternion

/-- geometry_msgs/Transform: translation and rotation. -/
structure Transform where
  translation : Point
  rotation : Quaternion

/-- geometry_msgs/TransformStamped, reduced to the fields the kettle node
uses: the frame ids of the header and the child, and the transform itself. -/
structure TransformStamped where
  frame_id : String
  child_frame_id : String
  transform : Transform

/-- Default-constructed `TransformStamped()` message: empty frame ids, zero
translation, identity rotation.  This is the value stored in
`kettle_actual_place` by `Kettle.__init__` (kettle.py line 44) before any
pick has run. -/
def transformStampedDefault : TransformStamped :=
  ⟨"", "", ⟨⟨0, 0, 0⟩, ⟨0, 0, 0, 1⟩⟩⟩

/-- Hamilton product of two quaternions (x, y, z, w order as in ROS). -/
def quatMul (q r : Quaternion) : Quaternion :=
  ⟨q.w * r.x + q.x * r.w + q.y * r.z - q.z * r.y,
   q.w * r.y - q.x * r.z + q.y * r.w + q.z * r.x,
   q.w * r.z + q.x * r.y - q.y * r.x + q.z * r.w,
   q.w * r.w - q.x * r.x - q.y * r.y - q.z * r.z⟩

/-- Quaternion conjugate. -/
def quatConj (q : Quaternion) : Quaternion := ⟨-q.x, -q.y, -q.z, q.w⟩

/-- Rotate a vector by a (unit) quaternion: q · v · q⁻¹. -/
def quatRotate (q : Quaternion) (v : Point) : Point :=
  let p := quatMul (quatMul q ⟨v.x, v.y, v.z, 0⟩) (quatConj q)
  ⟨p.x, p.y, p.z⟩

/-- tf2_geometry_msgs.do_transform_pose: apply a stamped transform to a pose.
The new position is the rotated position plus the translation; the new
orientation is the transform rotation composed with the pose orientation. -/
def do_transform_pose (p : Pose) (t : TransformStamped) : Pose :=
  ⟨⟨(quatRotate t.transform.rotation p.position).x + t.transform.translation.x,
    (quatRotate t.transform.rotation p.position).y + t.transform.translation.y,
    (quatRotate t.transform.rotation p.position).z + t.transform.translation.z⟩,
   quatMul t.transform.rotation p.orientation⟩

/-- One iteration of the while-loop of `get_spiral_waypoints`
(pouring.py lines 146-159): the pose appended for loop counter `count`,
given the precomputed angular step `thStep` and radial coefficient `b`. -/
noncomputable def spiralPose (startPoint : Point) (startOre : Quaternion)
    (thStep b : ℝ) (count : ℕ) : Pose :=
  let th : ℝ := count * thStep
  let r : ℝ := th * b
  ⟨⟨r * Real.cos th + startPoint.x,
    r * Real.sin th + startPoint.y,
    startPoint.z⟩,
   startOre⟩

/-- pouring.py lines 118-164, `get_spiral_waypoints`.  `numPoints` is the
Python int loop bound (the while loop runs for count = 0, ..., numPoints-1,
so a nonnegative bound is modelled by `ℕ`).  Lines 161-162 of the source
read `if flipStart: poseList.reverse` — the attribute `reverse` is accessed
but never called, so the list is returned unchanged in both branches; the
embedding reproduces that exactly. -/
noncomputable def get_spiral_waypoints (startPoint : Point)
    (startOre : Quaternion) (numPoints : ℕ) (maxRadius loops : ℝ)
    (flipStart : Bool) : List Pose :=
  let thTotal : ℝ := loops * 2 * Real.pi
  let thStep : ℝ := thTotal / numPoints
  let b : ℝ := maxRadius / 2 / Real.pi / loops
  let poseList : List Pose :=
    (List.range numPoints).map (spiralPose startPoint startOre thStep b)
  if flipStart then
    -- source line 162: `poseList.reverse` evaluates the bound method and
    -- discards it without calling it; the list is not mutated
    let _unused := poseList.reverse
    poseList
  else
    poseList

/-- botrista_interfaces/PourAction goal: the request fields read by
`pour_callback` and built by `pour_kettle_cb`. -/
structure PourGoal where
  num_points : ℕ
  spiral_radius : ℝ
  num_loops : ℝ
  start_outside : Bool
  pour_frame : String

/-- botrista_interfaces/PourAction result. -/
structure PourResult where
  status : Bool

/-- Externally visible calls made by `pour_callback`, in program order.
`execute_traj` records whether the source awaits the completion of the
trajectory execution before continuing (`awaited = false` mirrors the
missing `await` on pouring.py line 104); `create_cartesian_path` is awaited
in the source. -/
inductive PourEvent where
  | feedback (stage : String)
  | create_cartesian_path (waypoints : List Pose)
  | execute_traj (awaited : Bool)

/-- Environment of one `pour_callback` invocation: the outcome of the
tf lookup of `req.pour_frame` in `panda_link0` (`none` when the buffer
raises `TransformException`, otherwise the translation of the transform),
the orientation of the current end-effector pose, and whether the physical
trajectory execution has finished by the time the callback returns (state of
the world, never consulted by the source). -/
structure PourEnv where
  lookup_pour_frame : Option Point
  ee_orientation : Quaternion
  execution_completed : Bool

/-- pouring.py lines 54-108, `Pouring.pour_callback`.  Returns the action
result together with the ordered trace of external calls.  On a failed
lookup it publishes one feedback message naming the frame and returns
`status = False` (lines 77-81); otherwise it publishes staged feedback,
computes the spiral waypoints, plans a Cartesian path, dispatches the
trajectory execution without awaiting it, and returns `status = True`. -/
noncomputable def pour_callback (env : PourEnv) (req : PourGoal) :
    PourResult × List PourEvent :=
  match env.lookup_pour_frame with
  | none =>
      (⟨false⟩,
       [PourEvent.feedback ("Failed to get transform to " ++ req.pour_frame)])
  | some startPoint =>
      let startOre := env.ee_orientation
      let waypoints := get_spiral_waypoints startPoint startOre
        req.num_points req.spiral_radius req.num_loops req.start_outside
      (⟨true⟩,
       [PourEvent.feedback "Calculating path",
        PourEvent.feedback "Planning path",
        PourEvent.create_cartesian_path waypoints,
        PourEvent.feedback "Executing path",
        PourEvent.execute_traj false])

/-- moveit_wrapper.grasp_planner.GraspPlan as built by `place_kettle_cb`:
approach/grasp/retreat poses, the franka Grasp goal parameters of the
release command, and the reset_load flag. -/
structure GraspPlan where
  approach_pose : Pose
  grasp_pose : Pose
  grasp_width : ℝ
  grasp_force : ℝ
  grasp_speed : ℝ
  retreat_pose : Pose
  reset_load : Bool

/-- Externally visible calls made by the kettle node callbacks, in program
order.  `plan_pose` is a `plan_async(point, orientation, execute=True)`
motion request; `pour_goal` is a pour-action goal whose result is awaited;
`delay` is a call to the delay service; `execute_grasp_plan` submits a grasp
plan to the grasp planner; `log_error` is an error log message. -/
inductive KettleEvent where
  | plan_joints (names : List String) (positions : List ℝ)
  | plan_pose (point : Point) (orientation : Quaternion)
  | pour_goal (g : PourGoal)
  | delay (seconds : ℝ)
  | execute_grasp_plan (plan : GraspPlan)
  | log_error (msg : String)

/-- Session state of the kettle node: the one field mutated across
callbacks. -/
structure KettleState where
  kettle_actual_place : TransformStamped

/-- kettle.py line 44: the state right after `Kettle.__init__`, before any
pick has stored a realized grasp pose. -/
def kettleInit : KettleState := ⟨transformStampedDefault⟩

/-- kettle.py lines 147-185, `Kettle.place_kettle_cb`.  Composes approach,
grasp and retreat offsets through whatever `kettle_actual_place` currently
holds, submits the grasp plan (with the release command width 0.04, force
50, speed 0.2, and — as written on line 179 — `approach_pose` reused as the
retreat pose), and succeeds.  There is no check that a pick has run. -/
def place_kettle_cb (st : KettleState) : Option Unit × List KettleEvent :=
  let approach_pose : Pose := ⟨⟨0, 0, -0.1⟩, quaternionDefault⟩
  let grasp_pose : Pose := ⟨⟨0, 0, -0.02⟩, quaternionDefault⟩
  let retreat_pose : Pose := ⟨⟨0, 0, -0.1⟩, quaternionDefault⟩
  let approach_pose := do_transform_pose approach_pose st.kettle_actual_place
  let grasp_pose := do_transform_pose grasp_pose st.kettle_actual_place
  let _retreat_pose := do_transform_pose retreat_pose st.kettle_actual_place
  let grasp_plan : GraspPlan :=
    ⟨approach_pose, grasp_pose, 0.04, 50, 0.2, approach_pose, true⟩
  (some (), [KettleEvent.execute_grasp_plan grasp_plan])

/-- kettle.py lines 187-356, `Kettle.pour_kettle_cb`.  The argument is the
outcome of the tf lookup of `pot_top` in `panda_link0` (`none` when the
buffer raises).  On failure the source logs "No transform found" and
returns without producing a result (the goal handle is neither succeeded
nor aborted), issuing no motion call.  On success it composes the approach
and pour poses through the fixed spout offset and the pot_top transform,
then runs four pour cycles — each: move to approach, move to pour, send a
pour-action goal (100 points, 0.02 radius, 2 loops; `start_outside` true on
cycle 1 only) and await its result, move back to approach — with a
1-second delay-service call after cycles 1, 2 and 3 and none after
cycle 4, then succeeds. -/
def pour_kettle_cb (lookup_pot_top : Option TransformStamped) :
    Option Unit × List KettleEvent :=
  match lookup_pot_top with
  | none => (none, [KettleEvent.log_error "No transform found"])
  | some pot_top_tf =>
      let tf : TransformStamped :=
        ⟨"panda_link0", "", ⟨⟨-0.23, 0, 0.02⟩, quaternionDefault⟩⟩
      let approach_pose : Pose := ⟨⟨-0.01, 0, 0.20⟩, ⟨1, 0, 0, 0⟩⟩
      let pour_pose : Pose :=
        ⟨⟨0.01, -0.005, 0.17⟩, ⟨0.9452608, 0, -0.3150869, -0.0848662⟩⟩
      -- transform to spout
      let approach_pose := do_transform_pose approach_pose tf
      let pour_pose := do_transform_pose pour_pose tf
      -- transform to pot_top
      let approach_pose := do_transform_pose approach_pose pot_top_tf
      let pour_pose := do_transform_pose pour_pose pot_top_tf
      (some (),
       [ -- Pour 1
        KettleEvent.plan_pose approach_pose.position approach_pose.orientation,
        KettleEvent.plan_pose pour_pose.position pour_pose.orientation,
        KettleEvent.pour_goal ⟨100, 0.02, 2, true, "panda_hand_tcp"⟩,
        KettleEvent.plan_pose approach_pose.position approach_pose.orientation,
        KettleEvent.delay 1,
        -- Pour 2
        KettleEvent.plan_pose approach_pose.position approach_pose.orientation,
        KettleEvent.plan_pose pour_pose.position pour_pose.orientation,
        KettleEvent.pour_goal ⟨100, 0.02, 2, false, "panda_hand_tcp"⟩,
        KettleEvent.plan_pose approach_pose.position approach_pose.orientation,
        KettleEvent.delay 1,
        -- Pour 3
        KettleEvent.plan_pose approach_pose.position approach_pose.orientation,
        KettleEvent.plan_pose pour_pose.position pour_pose.orientation,
        KettleEvent.pour_goal ⟨100, 0.02, 2, false, "panda_hand_tcp"⟩,
        KettleEvent.plan_pose approach_pose.position approach_pose.orientation,
        KettleEvent.delay 1,
        -- Pour 4
        KettleEvent.plan_pose approach_pose.position approach_pose.orientation,
        KettleEvent.plan_pose pour_pose.position pour_pose.orientation,
        KettleEvent.pour_goal ⟨100, 0.02, 2, false, "panda_hand_tcp"⟩,
        KettleEvent.plan_pose approach_pose.position approach_pose.orientation])

/-- Projection of a kettle event onto the pour-action goal it carries, when
it carries one. -/
def pourGoalOf : KettleEvent → Option PourGoal
  | KettleEvent.pour_goal g => some g
  | _ => none

/-- Projection of a kettle event onto the delay duration it requests, when
it is a delay-service call. -/
def delayOf : KettleEvent → Option ℝ
  | KettleEvent.delay s => some s
  | _ => none

/-- Abstract shape of a kettle event, used to state the ordering of the
trace of `pour_kettle_cb` without fixing the composed pose values. -/
inductive KettleTag where
  | planJ
  | planP
  | pourG (start_outside : Bool)
  | pause
  | graspPlanT
  | logT
deriving DecidableEq

/-- The shape of one kettle event. -/
def tagOf : KettleEvent → KettleTag
  | KettleEvent.plan_joints _ _ => KettleTag.planJ
  | KettleEvent.plan_pose _ _ => KettleTag.planP
  | KettleEvent.pour_goal g => KettleTag.pourG g.start_outside
  | KettleEvent.delay _ => KettleTag.pause
  | KettleEvent.execute_grasp_plan _ => KettleTag.graspPlanT
  | KettleEvent.log_error _ => KettleTag.logT

/-! ## Helper lemmas about the spiral generator -/

/-- The spiral list, both with and without `flipStart`, is the map of
`spiralPose` over the range of loop counters: the reverse on source line 162
is never invoked, so the branch on `flipStart` has no effect. -/
lemma get_spiral_eq_map (sp : Point) (so : Quaternion) (n : ℕ)
    (mr lp : ℝ) (flip : Bool) :
    get_spiral_waypoints sp so n mr lp flip =
      (List.range n).map
        (spiralPose sp so (lp * 2 * Real.pi / n) (mr / 2 / Real.pi / lp)) := by
  unfold get_spiral_waypoints
  cases flip <;> simp

/-- The i-th element of the spiral list, for i below the point count. -/
lemma spiral_getElem (sp : Point) (so : Quaternion) (n : ℕ) (mr lp : ℝ)
    (flip : Bool) (i : ℕ) (hi : i < n) :
    (get_spiral_waypoints sp so n mr lp flip)[i]? =
      some (spiralPose sp so (lp * 2 * Real.pi / n) (mr / 2 / Real.pi / lp) i) := by
  rw [get_spiral_eq_map]
  simp [List.getElem?_map, List.getElem?_range hi]

/-! ## C1 -/

/-- C1 (refuted on the source): the claim says `startOutside = true` returns
the reversal of the `startOutside = false` sequence, with the first waypoint
at the outer radius.  On the source (pouring.py line 162 accesses
`poseList.reverse` without calling it) the two sequences are identical: at
numPoints = 2, maxRadius = 1, loops = 1 both start at the center `(0,0,0)`,
while the reversal of the `false` sequence starts at `(-1/2, 0, 0)`, so the
`true` sequence is not that reversal. -/
theorem spiral_flip_start_inert :
    get_spiral_waypoints ⟨0, 0, 0⟩ ⟨0, 0, 0, 1⟩ 2 1 1 true =
      get_spiral_waypoints ⟨0, 0, 0⟩ ⟨0, 0, 0, 1⟩ 2 1 1 false ∧
    (get_spiral_waypoints ⟨0, 0, 0⟩ ⟨0, 0, 0, 1⟩ 2 1 1 true)[0]? =
      some ⟨⟨0, 0, 0⟩, ⟨0, 0, 0, 1⟩⟩ ∧
    ((get_spiral_waypoints ⟨0, 0, 0⟩ ⟨0, 0, 0, 1⟩ 2 1 1 false).reverse)[0]? =
      some ⟨⟨-(1/2), 0, 0⟩, ⟨0, 0, 0, 1⟩⟩ ∧
    get_spiral_waypoints ⟨0, 0, 0⟩ ⟨0, 0, 0, 1⟩ 2 1 1 true ≠
      (get_spiral_waypoints ⟨0, 0, 0⟩ ⟨0, 0, 0, 1⟩ 2 1 1 false).reverse := by
  have hmap : ∀ flip, get_spiral_waypoints ⟨0, 0, 0⟩ ⟨0, 0, 0, 1⟩ 2 1 1 flip =
      [spiralPose ⟨0, 0, 0⟩ ⟨0, 0, 0, 1⟩ (1 * 2 * Real.pi / 2) (1 / 2 / Real.pi / 1) 0,
       spiralPose ⟨0, 0, 0⟩ ⟨0, 0, 0, 1⟩ (1 * 2 * Real.pi / 2) (1 / 2 / Real.pi / 1) 1] := by
    intro flip
    rw [get_spiral_eq_map]
    norm_num [List.range_succ]
  have h0 : spiralPose ⟨0, 0, 0⟩ ⟨0, 0, 0, 1⟩ (1 * 2 * Real.pi / 2) (1 / 2 / Real.pi / 1) 0 =
      (⟨⟨0, 0, 0⟩, ⟨0, 0, 0, 1⟩⟩ : Pose) := by
    simp [spiralPose]
  have h1 : spiralPose ⟨0, 0, 0⟩ ⟨0, 0, 0, 1⟩ (1 * 2 * Real.pi / 2) (1 / 2 / Real.pi / 1) 1 =
      (⟨⟨-(1/2), 0, 0⟩, ⟨0, 0, 0, 1⟩⟩ : Pose) := by
    have hth : ((1 : ℕ) : ℝ) * (1 * 2 * Real.pi / 2) = Real.pi := by
      push_cast
      ring
    simp only [spiralPose, hth, Real.cos_pi, Real.sin_pi]
    have hpi := Real.pi_ne_zero
    refine congrArg₂ Pose.mk (congrArg₂ (fun a b => Point.mk a b 0) ?_ ?_) rfl
    · field_simp
      ring
    · ring
  refine ⟨by rw [hmap true, hmap false], ?_, ?_, ?_⟩
  · rw [hmap true, h0, h1]
    rfl
  · rw [hmap false, h0, h1]
    rfl
  · intro hcontra
    rw [hmap true, hmap false, h0, h1] at hcontra
    have hx := congrArg (fun l => (l.map (fun p => p.position.x))[0]?) hcontra
    simp at hx

/-! ## C2 -/

/-- Componentwise closeness of two points within a tolerance. -/
def pointNear (p q : Point) (tol : ℝ) : Prop :=
  |p.x - q.x| ≤ tol ∧ |p.y - q.y| ≤ tol ∧ |p.z - q.z| ≤ tol

/-- C2: with `startOutside = false` the i-th waypoint (0-based, i below
numPoints) sits at angle θ_i = i·(loops·2π/numPoints) and radius
r_i = (maxRadius/(2π·loops))·θ_i around the center, at the center height;
and for center (0,0,0), numPoints = 4, maxRadius = 0.02, loops = 1 the four
positions are within 1e-3 of (0,0,0), (0,0.005,0), (-0.01,0,0) and
(0,-0.015,0). -/
theorem spiral_waypoint_formula :
    (∀ (sp : Point) (so : Quaternion) (n : ℕ) (mr lp : ℝ),
      1 ≤ n → 0 ≤ mr → 0 < lp → ∀ i : ℕ, i < n →
        (get_spiral_waypoints sp so n mr lp false)[i]? =
          some ⟨⟨sp.x + (mr / (2 * Real.pi * lp)) * ((i : ℝ) * (lp * 2 * Real.pi / n)) *
                    Real.cos ((i : ℝ) * (lp * 2 * Real.pi / n)),
                 sp.y + (mr / (2 * Real.pi * lp)) * ((i : ℝ) * (lp * 2 * Real.pi / n)) *
                    Real.sin ((i : ℝ) * (lp * 2 * Real.pi / n)),
                 sp.z⟩, so⟩) ∧
    (∃ p0 p1 p2 p3,
      get_spiral_waypoints ⟨0, 0, 0⟩ ⟨0, 0, 0, 1⟩ 4 0.02 1 false = [p0, p1, p2, p3] ∧
      pointNear p0.position ⟨0, 0, 0⟩ 0.001 ∧
      pointNear p1.position ⟨0, 0.005, 0⟩ 0.001 ∧
      pointNear p2.position ⟨-0.01, 0, 0⟩ 0.001 ∧
      pointNear p3.position ⟨0, -0.015, 0⟩ 0.001) := by
  constructor
  · intro sp so n mr lp _hn _hmr _hlp i hi
    rw [spiral_getElem sp so n mr lp false i hi]
    simp only [spiralPose, Option.some.injEq]
    refine congrArg₂ Pose.mk ?_ rfl
    refine congrArg₂ (fun a b => Point.mk a b sp.z) ?_ ?_
    · ring
    · ring
  · refine ⟨spiralPose ⟨0, 0, 0⟩ ⟨0, 0, 0, 1⟩ (1 * 2 * Real.pi / ((4 : ℕ) : ℝ)) ((0.02 : ℝ) / 2 / Real.pi / 1) 0,
           spiralPose ⟨0, 0, 0⟩ ⟨0, 0, 0, 1⟩ (1 * 2 * Real.pi / ((4 : ℕ) : ℝ)) ((0.02 : ℝ) / 2 / Real.pi / 1) 1,
           spiralPose ⟨0, 0, 0⟩ ⟨0, 0, 0, 1⟩ (1 * 2 * Real.pi / ((4 : ℕ) : ℝ)) ((0.02 : ℝ) / 2 / Real.pi / 1) 2,
           spiralPose ⟨0, 0, 0⟩ ⟨0, 0, 0, 1⟩ (1 * 2 * Real.pi / ((4 : ℕ) : ℝ)) ((0.02 : ℝ) / 2 / Real.pi / 1) 3,
           ?_, ?_, ?_, ?_, ?_⟩
    · rw [get_spiral_eq_map]
      rfl
    · simp only [spiralPose, pointNear]
      norm_num
    · have hth : ((1 : ℕ) : ℝ) * (1 * 2 * Real.pi / ((4 : ℕ) : ℝ)) = Real.pi / 2 := by
        push_cast
        ring
      have hp1 : spiralPose ⟨0, 0, 0⟩ ⟨0, 0, 0, 1⟩ (1 * 2 * Real.pi / ((4 : ℕ) : ℝ))
          ((0.02 : ℝ) / 2 / Real.pi / 1) 1 = ⟨⟨0, 0.005, 0⟩, ⟨0, 0, 0, 1⟩⟩ := by
        simp only [spiralPose, hth, Real.cos_pi_div_two, Real.sin_pi_div_two]
        refine congrArg₂ Pose.mk (congrArg₂ (fun a b => Point.mk a b 0) ?_ ?_) rfl
        · ring
        · field_simp
          ring
      simp only [hp1, pointNear]
      norm_num
    · have hth : ((2 : ℕ) : ℝ) * (1 * 2 * Real.pi / ((4 : ℕ) : ℝ)) = Real.pi := by
        push_cast
        ring
      have hp2 : spiralPose ⟨0, 0, 0⟩ ⟨0, 0, 0, 1⟩ (1 * 2 * Real.pi / ((4 : ℕ) : ℝ))
          ((0.02 : ℝ) / 2 / Real.pi / 1) 2 = ⟨⟨-0.01, 0, 0⟩, ⟨0, 0, 0, 1⟩⟩ := by
        simp only [spiralPose, hth, Real.cos_pi, Real.sin_pi]
        refine congrArg₂ Pose.mk (congrArg₂ (fun a b => Point.mk a b 0) ?_ ?_) rfl
        · field_simp
          ring
        · ring
      simp only [hp2, pointNear]
      norm_num
    · have hth : ((3 : ℕ) : ℝ) * (1 * 2 * Real.pi / ((4 : ℕ) : ℝ)) = Real.pi + Real.pi / 2 := by
        push_cast
        ring
      have hp3 : spiralPose ⟨0, 0, 0⟩ ⟨0, 0, 0, 1⟩ (1 * 2 * Real.pi / ((4 : ℕ) : ℝ))
          ((0.02 : ℝ) / 2 / Real.pi / 1) 3 = ⟨⟨0, -0.015, 0⟩, ⟨0, 0, 0, 1⟩⟩ := by
        simp only [spiralPose, hth, Real.cos_add, Real.sin_add,
          Real.cos_pi, Real.sin_pi, Real.cos_pi_div_two, Real.sin_pi_div_two]
        refine congrArg₂ Pose.mk (congrArg₂ (fun a b => Point.mk a b 0) ?_ ?_) rfl
        · ring
        · field_simp
          ring
      simp only [hp3, pointNear]
      norm_num

/-- Witness for C2: the general formula instantiated at the third waypoint
of the concrete spiral of the spec example. -/
theorem spiral_waypoint_formula_witness :
    (get_spiral_waypoints ⟨0, 0, 0⟩ ⟨0, 0, 0, 1⟩ 4 0.02 1 false)[2]? =
      some ⟨⟨(0 : ℝ) + ((0.02 : ℝ) / (2 * Real.pi * 1)) * (((2 : ℕ) : ℝ) * (1 * 2 * Real.pi / (4 : ℕ))) *
                Real.cos (((2 : ℕ) : ℝ) * (1 * 2 * Real.pi / (4 : ℕ))),
             (0 : ℝ) + ((0.02 : ℝ) / (2 * Real.pi * 1)) * (((2 : ℕ) : ℝ) * (1 * 2 * Real.pi / (4 : ℕ))) *
                Real.sin (((2 : ℕ) : ℝ) * (1 * 2 * Real.pi / (4 : ℕ))),
             (0 : ℝ)⟩, ⟨0, 0, 0, 1⟩⟩ :=
  spiral_waypoint_formula.1 ⟨0, 0, 0⟩ ⟨0, 0, 0, 1⟩ 4 0.02 1
    (by norm_num) (by norm_num) (by norm_num) 2 (by norm_num)

/-! ## C3 -/

/-- C3: for valid parameters (either direction flag) the generator returns
exactly numPoints waypoints and every one of them carries exactly the input
orientation. -/
theorem spiral_length_and_orientation (sp : Point) (so : Quaternion) (n : ℕ)
    (mr lp : ℝ) (flip : Bool) (_hn : 1 ≤ n) (_hmr : 0 ≤ mr) (_hlp : 0 < lp) :
    (get_spiral_waypoints sp so n mr lp flip).length = n ∧
    ∀ p ∈ get_spiral_waypoints sp so n mr lp flip, p.orientation = so := by
  rw [get_spiral_eq_map]
  refine ⟨by simp, ?_⟩
  intro p hp
  simp only [List.mem_map] at hp
  obtain ⟨i, _, rfl⟩ := hp
  rfl

/-- Witness for C3 at numPoints = 3, maxRadius = 0.02, loops = 2,
startOutside = true. -/
theorem spiral_length_and_orientation_witness :
    (get_spiral_waypoints ⟨0, 0, 0⟩ ⟨0, 0, 0, 1⟩ 3 0.02 2 true).length = 3 ∧
    ∀ p ∈ get_spiral_waypoints ⟨0, 0, 0⟩ ⟨0, 0, 0, 1⟩ 3 0.02 2 true,
      p.orientation = ⟨0, 0, 0, 1⟩ :=
  spiral_length_and_orientation ⟨0, 0, 0⟩ ⟨0, 0, 0, 1⟩ 3 0.02 2 true
    (by norm_num) (by norm_num) (by norm_num)

/-! ## C4 -/

/-- C4 (refuted on the source): the claim says invalid parameters are
rejected with a `ParameterInvalid` failure before any computation, with no
waypoints produced.  The source has no parameter validation at all: with
maxRadius = -1 (invalid) and numPoints = 1 it computes and returns one
waypoint, and with numPoints = 0 it returns an empty list without any error
signal. -/
theorem spiral_no_parameter_validation :
    get_spiral_waypoints ⟨0, 0, 0⟩ ⟨0, 0, 0, 1⟩ 1 (-1) 1 false =
      [⟨⟨0, 0, 0⟩, ⟨0, 0, 0, 1⟩⟩] ∧
    get_spiral_waypoints ⟨0, 0, 0⟩ ⟨0, 0, 0, 1⟩ 0 0.02 1 false = [] := by
  constructor
  · rw [get_spiral_eq_map]
    norm_num [List.range_succ, spiralPose]
  · rw [get_spiral_eq_map]
    simp

/-! ## C10 -/

/-- Horizontal (XY-plane) distance between two points. -/
noncomputable def distXY (p q : Point) : ℝ :=
  Real.sqrt ((p.x - q.x) ^ 2 + (p.y - q.y) ^ 2)

/-- The i-th spiral pose sits at horizontal distance maxRadius·i/numPoints
from the center. -/
lemma spiral_pose_dist (sp : Point) (so : Quaternion) (n : ℕ) (mr lp : ℝ)
    (hn : 1 ≤ n) (hmr : 0 ≤ mr) (hlp : 0 < lp) (i : ℕ) :
    distXY (spiralPose sp so (lp * 2 * Real.pi / n) (mr / 2 / Real.pi / lp) i).position sp
      = mr * i / n := by
  have hnR : (0 : ℝ) < n := by
    have : 0 < n := lt_of_lt_of_le Nat.zero_lt_one hn
    exact_mod_cast this
  simp only [distXY, spiralPose]
  have hx : (i : ℝ) * (lp * 2 * Real.pi / n) * (mr / 2 / Real.pi / lp) *
      Real.cos ((i : ℝ) * (lp * 2 * Real.pi / n)) + sp.x - sp.x =
      (i : ℝ) * (lp * 2 * Real.pi / n) * (mr / 2 / Real.pi / lp) *
      Real.cos ((i : ℝ) * (lp * 2 * Real.pi / n)) := by ring
  have hy : (i : ℝ) * (lp * 2 * Real.pi / n) * (mr / 2 / Real.pi / lp) *
      Real.sin ((i : ℝ) * (lp * 2 * Real.pi / n)) + sp.y - sp.y =
      (i : ℝ) * (lp * 2 * Real.pi / n) * (mr / 2 / Real.pi / lp) *
      Real.sin ((i : ℝ) * (lp * 2 * Real.pi / n)) := by ring
  rw [hx, hy]
  have hsum : ((i : ℝ) * (lp * 2 * Real.pi / n) * (mr / 2 / Real.pi / lp) *
      Real.cos ((i : ℝ) * (lp * 2 * Real.pi / n))) ^ 2 +
      ((i : ℝ) * (lp * 2 * Real.pi / n) * (mr / 2 / Real.pi / lp) *
      Real.sin ((i : ℝ) * (lp * 2 * Real.pi / n))) ^ 2 =
      ((i : ℝ) * (lp * 2 * Real.pi / n) * (mr / 2 / Real.pi / lp)) ^ 2 := by
    have h := Real.sin_sq_add_cos_sq ((i : ℝ) * (lp * 2 * Real.pi / n))
    nlinarith [h]
  rw [hsum]
  have hval : (i : ℝ) * (lp * 2 * Real.pi / n) * (mr / 2 / Real.pi / lp) =
      mr * i / n := by
    field_simp
    ring
  rw [hval, Real.sqrt_sq (by positivity)]

/-- C10: every waypoint of the spiral (either direction flag) lies within
horizontal distance maxRadius·(numPoints-1)/numPoints of the center — in
particular within maxRadius — and the outermost waypoint attains exactly
that largest radius. -/
theorem spiral_radius_bound (sp : Point) (so : Quaternion) (n : ℕ)
    (mr lp : ℝ) (flip : Bool) (hn : 1 ≤ n) (hmr : 0 ≤ mr) (hlp : 0 < lp) :
    (∀ p ∈ get_spiral_waypoints sp so n mr lp flip,
      distXY p.position sp ≤ mr * ((n : ℝ) - 1) / n ∧
      distXY p.position sp ≤ mr) ∧
    (∃ p ∈ get_spiral_waypoints sp so n mr lp flip,
      distXY p.position sp = mr * ((n : ℝ) - 1) / n) := by
  have hnR : (0 : ℝ) < n := by
    have : 0 < n := lt_of_lt_of_le Nat.zero_lt_one hn
    exact_mod_cast this
  constructor
  · intro p hp
    rw [get_spiral_eq_map] at hp
    simp only [List.mem_map, List.mem_range] at hp
    obtain ⟨i, hi, rfl⟩ := hp
    rw [spiral_pose_dist sp so n mr lp hn hmr hlp i]
    have hin : (i : ℝ) ≤ (n : ℝ) - 1 := by
      have : (i : ℝ) + 1 ≤ (n : ℝ) := by exact_mod_cast hi
      linarith
    constructor
    · gcongr
    · rw [div_le_iff₀ hnR]
      nlinarith
  · refine ⟨spiralPose sp so (lp * 2 * Real.pi / n) (mr / 2 / Real.pi / lp) (n - 1), ?_, ?_⟩
    · rw [get_spiral_eq_map]
      simp only [List.mem_map, List.mem_range]
      exact ⟨n - 1, Nat.sub_lt (lt_of_lt_of_le Nat.zero_lt_one hn) Nat.zero_lt_one, rfl⟩
    · rw [spiral_pose_dist sp so n mr lp hn hmr hlp (n - 1)]
      have : ((n - 1 : ℕ) : ℝ) = (n : ℝ) - 1 := by
        have : 1 ≤ n := hn
        push_cast [Nat.cast_sub this]
        ring
      rw [this]

/-- Witness for C10 at numPoints = 2, maxRadius = 1, loops = 1. -/
theorem spiral_radius_bound_witness :
    (∀ p ∈ get_spiral_waypoints ⟨0, 0, 0⟩ ⟨0, 0, 0, 1⟩ 2 1 1 false,
      distXY p.position ⟨0, 0, 0⟩ ≤ 1 * (((2 : ℕ) : ℝ) - 1) / ((2 : ℕ) : ℝ) ∧
      distXY p.position ⟨0, 0, 0⟩ ≤ 1) ∧
    (∃ p ∈ get_spiral_waypoints ⟨0, 0, 0⟩ ⟨0, 0, 0, 1⟩ 2 1 1 false,
      distXY p.position ⟨0, 0, 0⟩ = 1 * (((2 : ℕ) : ℝ) - 1) / ((2 : ℕ) : ℝ)) :=
  spiral_radius_bound ⟨0, 0, 0⟩ ⟨0, 0, 0, 1⟩ 2 1 1 false
    (by norm_num) (by norm_num) (by norm_num)

/-! ## C5 -/

/-- C5: a pour invocation whose pot_top lookup succeeds reports success and
issues exactly 4 pour-action goals, in order with direction flags
[true, false, false, false], each with 100 points, radius 0.02 and 2 loops,
and exactly 3 one-second delay-service calls; the shape of the whole trace
shows each delay right after the return-to-approach move closing cycles 1,
2 and 3, with no delay after cycle 4. -/
theorem pour_cycle_structure (tf : TransformStamped) :
    (pour_kettle_cb (some tf)).1 = some () ∧
    (pour_kettle_cb (some tf)).2.filterMap pourGoalOf =
      [⟨100, 0.02, 2, true, "panda_hand_tcp"⟩,
       ⟨100, 0.02, 2, false, "panda_hand_tcp"⟩,
       ⟨100, 0.02, 2, false, "panda_hand_tcp"⟩,
       ⟨100, 0.02, 2, false, "panda_hand_tcp"⟩] ∧
    (pour_kettle_cb (some tf)).2.filterMap delayOf = [1, 1, 1] ∧
    (pour_kettle_cb (some tf)).2.map tagOf =
      [KettleTag.planP, KettleTag.planP, KettleTag.pourG true, KettleTag.planP,
       KettleTag.pause,
       KettleTag.planP, KettleTag.planP, KettleTag.pourG false, KettleTag.planP,
       KettleTag.pause,
       KettleTag.planP, KettleTag.planP, KettleTag.pourG false, KettleTag.planP,
       KettleTag.pause,
       KettleTag.planP, KettleTag.planP, KettleTag.pourG false, KettleTag.planP] :=
  ⟨rfl, rfl, rfl, rfl⟩

/-- Witness for C5: the pour cycle structure at the identity transform. -/
theorem pour_cycle_structure_witness :
    (pour_kettle_cb (some transformStampedDefault)).1 = some () ∧
    (pour_kettle_cb (some transformStampedDefault)).2.filterMap pourGoalOf =
      [⟨100, 0.02, 2, true, "panda_hand_tcp"⟩,
       ⟨100, 0.02, 2, false, "panda_hand_tcp"⟩,
       ⟨100, 0.02, 2, false, "panda_hand_tcp"⟩,
       ⟨100, 0.02, 2, false, "panda_hand_tcp"⟩] ∧
    (pour_kettle_cb (some transformStampedDefault)).2.filterMap delayOf = [1, 1, 1] ∧
    (pour_kettle_cb (some transformStampedDefault)).2.map tagOf =
      [KettleTag.planP, KettleTag.planP, KettleTag.pourG true, KettleTag.planP,
       KettleTag.pause,
       KettleTag.planP, KettleTag.planP, KettleTag.pourG false, KettleTag.planP,
       KettleTag.pause,
       KettleTag.planP, KettleTag.planP, KettleTag.pourG false, KettleTag.planP,
       KettleTag.pause,
       KettleTag.planP, KettleTag.planP, KettleTag.pourG false, KettleTag.planP] :=
  pour_cycle_structure transformStampedDefault

/-! ## C6 -/

/-- C6 (refuted on the source): the claim says a place with no prior pick
fails with a precondition violation before any motion command.  The source
has no such check: on the freshly initialized session (where
`kettle_actual_place` still holds the default identity transform of
kettle.py line 44) `place_kettle_cb` composes the fixed offsets through
that default transform, submits the grasp plan — a motion command — and
reports success. -/
theorem place_without_pick_issues_motion :
    (place_kettle_cb kettleInit).1 = some () ∧
    (place_kettle_cb kettleInit).2 =
      [KettleEvent.execute_grasp_plan
        ⟨⟨⟨0, 0, -0.1⟩, ⟨0, 0, 0, 1⟩⟩, ⟨⟨0, 0, -0.02⟩, ⟨0, 0, 0, 1⟩⟩,
         0.04, 50, 0.2, ⟨⟨0, 0, -0.1⟩, ⟨0, 0, 0, 1⟩⟩, true⟩] := by
  refine ⟨rfl, ?_⟩
  simp only [place_kettle_cb, kettleInit, transformStampedDefault,
    do_transform_pose, quatRotate, quatMul, quatConj, quaternionDefault,
    List.cons.injEq, and_true, KettleEvent.execute_grasp_plan.injEq,
    GraspPlan.mk.injEq, Pose.mk.injEq, Point.mk.injEq, Quaternion.mk.injEq]
  norm_num

/-! ## C7 -/

/-- C7: when the pour service cannot look up the requested frame, the
invocation fails directly: it returns status = false and its trace is
exactly one feedback message naming the missing frame — no path
computation, no planning call, no execution call. -/
theorem pour_lookup_failure_reports_and_stops (env : PourEnv) (req : PourGoal)
    (h : env.lookup_pour_frame = none) :
    (pour_callback env req).1.status = false ∧
    (pour_callback env req).2 =
      [PourEvent.feedback ("Failed to get transform to " ++ req.pour_frame)] := by
  unfold pour_callback
  rw [h]
  exact ⟨rfl, rfl⟩

/-- Witness for C7: a concrete environment whose lookup fails. -/
theorem pour_lookup_failure_witness :
    (pour_callback ⟨none, ⟨0, 0, 0, 1⟩, true⟩ ⟨100, 0.02, 2, true, "cup_top"⟩).1.status = false ∧
    (pour_callback ⟨none, ⟨0, 0, 0, 1⟩, true⟩ ⟨100, 0.02, 2, true, "cup_top"⟩).2 =
      [PourEvent.feedback ("Failed to get transform to " ++ "cup_top")] :=
  pour_lookup_failure_reports_and_stops ⟨none, ⟨0, 0, 0, 1⟩, true⟩
    ⟨100, 0.02, 2, true, "cup_top"⟩ rfl

/-! ## C8 -/

/-- C8 (refuted on the source): the claim says a failed pot_top lookup
aborts before any motion call — which holds — and returns an explicit
failure result naming the unresolved frame — which does not: the source
returns no result at all (the goal handle is neither succeeded nor
aborted) and only logs the generic message "No transform found", which
does not name the pot_top frame. -/
theorem pour_kettle_lookup_failure_silent :
    pour_kettle_cb none = (none, [KettleEvent.log_error "No transform found"]) :=
  rfl

/-! ## C9 -/

/-- A pour-service environment whose frame lookup succeeds but whose
physical trajectory execution has not completed. -/
def pourEnvInFlight : PourEnv := ⟨some ⟨0.4, 0, 0.3⟩, ⟨0, 0, 0, 1⟩, false⟩

/-- The pour goal the kettle node sends on its first cycle. -/
def pourReqStd : PourGoal := ⟨100, 0.02, 2, true, "panda_hand_tcp"⟩

/-- C9 (refuted on the source): the claim says success is reported only
after an execution-completion acknowledgment.  The source dispatches
`execute_trajectory` without awaiting it (pouring.py line 104) and returns
status = true immediately: in an environment where execution has not
completed, the callback still returns success, its trace holds the
un-awaited dispatch, and no awaited execution call occurs. -/
theorem pour_success_without_completion_wait :
    pourEnvInFlight.execution_completed = false ∧
    (pour_callback pourEnvInFlight pourReqStd).1.status = true ∧
    PourEvent.execute_traj false ∈ (pour_callback pourEnvInFlight pourReqStd).2 ∧
    PourEvent.execute_traj true ∉ (pour_callback pourEnvInFlight pourReqStd).2 := by
  refine ⟨rfl, rfl, ?_, ?_⟩
  · simp [pour_callback, pourEnvInFlight, pourReqStd]
  · simp [pour_callback, pourEnvInFlight, pourReqStd]

end Botrista
